import Mathlib

/-!
Verification development for the event-judging application: a shallow
embedding of the relational schema in
`supabase/migrations/001_judging_system_schema.sql` (tables, check
constraints, unique constraints, foreign keys with their delete actions,
and row-level-security policies), the `send-judge-invitation` edge
function in `supabase/functions/send-judge-invitation/index.ts`, and the
client state mirror's `loadData`.

Conventions: `uuid` columns are modelled as `Nat`, nullable columns as
`Option _`, SQL `numeric` as `ℚ`, `text` as `String`.  Timestamp columns
(`created_at`, `submitted_at`, ...) play no role in any property below and
are omitted.  SQL three-valued equality on nullable columns (`NULL = x`
is not true) is `sqlEq`.
-/

/-- SQL equality on nullable values: a comparison involving NULL is not true.
This is the semantics both of `=` in policy expressions and of the duplicate
test performed by a UNIQUE constraint (NULLs are distinct). -/
def sqlEq (a b : Option Nat) : Bool :=
  match a, b with
  | some x, some y => x = y
  | _, _ => false

/-- Row of `events` (id, name, status, created_by; timestamps omitted). -/
structure EventRow where
  id : Nat
  name : String
  status : String
  created_by : Option Nat
  deriving Repr, DecidableEq

/-- Row of `categories` (`event_id uuid REFERENCES events(id) ON DELETE CASCADE`,
`weight numeric DEFAULT 1`, `criteria jsonb` modelled as its serialized text). -/
structure CategoryRow where
  id : Nat
  event_id : Option Nat
  name : String
  weight : ℚ
  criteria : String
  deriving Repr, DecidableEq

/-- Row of `teams` (`event_id ... ON DELETE CASCADE`,
`category_id uuid REFERENCES categories(id)` — note: no delete action,
hence Postgres default NO ACTION, and no NOT NULL). -/
structure TeamRow where
  id : Nat
  event_id : Option Nat
  name : String
  category_id : Option Nat
  deriving Repr, DecidableEq

/-- Row of `judges` (`access_token text UNIQUE NOT NULL`). -/
structure JudgeRow where
  id : Nat
  event_id : Option Nat
  name : String
  email : String
  access_token : String
  invitation_sent : Bool
  deriving Repr, DecidableEq

/-- Row of `judge_assignments` (`UNIQUE(judge_id, team_id, round_number)`,
all three foreign keys `ON DELETE CASCADE`). -/
structure JudgeAssignmentRow where
  id : Nat
  judge_id : Option Nat
  category_id : Option Nat
  team_id : Option Nat
  round_number : Int
  deriving Repr, DecidableEq

/-- Row of `scoring_rounds` (`status text DEFAULT 'pending'`,
`UNIQUE(event_id, round_number)`; the schema puts no CHECK on `status`). -/
structure ScoringRoundRow where
  id : Nat
  event_id : Option Nat
  round_number : Int
  name : String
  status : String
  deriving Repr, DecidableEq

/-- Row of `scores` (`score numeric NOT NULL CHECK (score >= 0 AND score <= 10)`,
`UNIQUE(judge_id, team_id, round_id, criterion_name)`; the four id columns
are nullable and all cascade on delete of their parent). -/
structure ScoreRow where
  id : Nat
  judge_id : Option Nat
  team_id : Option Nat
  category_id : Option Nat
  round_id : Option Nat
  criterion_name : String
  score : ℚ
  comments : Option String
  deriving Repr, DecidableEq

/-- Row of `normalized_scores` (`UNIQUE(judge_id, team_id, round_id)`). -/
structure NormalizedScoreRow where
  id : Nat
  judge_id : Option Nat
  team_id : Option Nat
  round_id : Option Nat
  raw_score : ℚ
  normalized_score : ℚ
  percentile : Option ℚ
  rank : Option Int
  selected_for_round2 : Bool
  deriving Repr, DecidableEq

/-- Row of `final_results` (`UNIQUE(event_id, team_id)`). -/
structure FinalResultRow where
  id : Nat
  event_id : Option Nat
  team_id : Option Nat
  final_score : ℚ
  final_rank : Option Int
  correlation_coefficient : Option ℚ
  deriving Repr, DecidableEq

/-- The database state: one list of rows per table of the migration. -/
structure DBState where
  events : List EventRow
  categories : List CategoryRow
  teams : List TeamRow
  judges : List JudgeRow
  judge_assignments : List JudgeAssignmentRow
  scoring_rounds : List ScoringRoundRow
  scores : List ScoreRow
  normalized_scores : List NormalizedScoreRow
  final_results : List FinalResultRow
  deriving Repr, DecidableEq

/-! ### The `scores` table: check constraint, unique constraint, insert and upsert -/

/-- The check constraint of `scores`: `CHECK (score >= 0 AND score <= 10)`. -/
def scoreCheckConstraint (v : ℚ) : Bool :=
  decide (0 ≤ v) && decide (v ≤ 10)

/-- Whether an existing row `a` collides with a candidate row `b` under
`UNIQUE(judge_id, team_id, round_id, criterion_name)`.  SQL unique indexes
treat NULLs as distinct, so a nullable column only collides when both sides
are non-NULL and equal; `criterion_name` is NOT NULL text. -/
def scoreUniqueConflict (a b : ScoreRow) : Bool :=
  sqlEq a.judge_id b.judge_id && sqlEq a.team_id b.team_id &&
    sqlEq a.round_id b.round_id && decide (a.criterion_name = b.criterion_name)

/-- The tuple the `scores` unique constraint is declared on. -/
def scoreTuple (r : ScoreRow) : Option Nat × Option Nat × Option Nat × String :=
  (r.judge_id, r.team_id, r.round_id, r.criterion_name)

/-- Plain `INSERT` into `scores`: accepted when the check constraint holds and
no existing row collides under the unique constraint; rejected (`none`) otherwise. -/
def insertScore (rows : List ScoreRow) (r : ScoreRow) : Option (List ScoreRow) :=
  if scoreCheckConstraint r.score && rows.all (fun x => !scoreUniqueConflict x r) then
    some (rows ++ [r])
  else
    none

/-- Modelled from the spec: the client-side score submission is not under
`src/`; the spec describes it as "unique-constraint-driven upsert semantics
(last write wins within the constraint)".  An upsert whose candidate collides
with existing rows under the unique index overwrites their stored value and
comments; otherwise it behaves as a plain insert.  As in Postgres
`ON CONFLICT`, conflict detection uses the unique index, so rows with a NULL
key component never conflict.  The check constraint applies in both cases. -/
def submitScore (rows : List ScoreRow) (r : ScoreRow) : Option (List ScoreRow) :=
  if !scoreCheckConstraint r.score then
    none
  else if rows.any (fun x => scoreUniqueConflict x r) then
    some (rows.map (fun x =>
      if scoreUniqueConflict x r then
        { x with score := r.score, comments := r.comments }
      else x))
  else
    some (rows ++ [r])

/-- States of the `scores` table reachable at the data layer: the empty table,
plain inserts, spec-modelled upsert submissions, and deletes (the RLS policy
on `scores` permits all of these to any caller). -/
inductive ScoresReachable : List ScoreRow → Prop
  | empty : ScoresReachable []
  | insert {s r s'} : ScoresReachable s → insertScore s r = some s' →
      ScoresReachable s'
  | submit {s r s'} : ScoresReachable s → submitScore s r = some s' →
      ScoresReachable s'
  | delete {s} (p : ScoreRow → Bool) : ScoresReachable s →
      ScoresReachable (s.filter fun x => !p x)

/-- Whether a row carries the given fully-non-NULL key tuple. -/
def scoreKeyMatch (x : ScoreRow) (j t rd : Nat) (c : String) : Bool :=
  decide (x.judge_id = some j) && decide (x.team_id = some t) &&
    decide (x.round_id = some rd) && decide (x.criterion_name = c)

/-- Number of rows of the table carrying a given fully-non-NULL key tuple. -/
def scoreKeyCount (rows : List ScoreRow) (j t rd : Nat) (c : String) : Nat :=
  (rows.filter fun x => scoreKeyMatch x j t rd c).length

/-! ### Row-level security policies -/

/-- Postgres roles the policies of the migration are addressed to. -/
inductive Role where
  | anon
  | authenticated
  deriving Repr, DecidableEq

/-- The caller as the policies see it: its role and `auth.uid()`
(`none` for an anonymous caller holding no session). -/
structure AuthCtx where
  role : Role
  uid : Option Nat
  deriving Repr, DecidableEq

/-- USING clause of policy "Users can manage judges for their events"
(`FOR ALL TO authenticated`): `EXISTS (SELECT 1 FROM events WHERE events.id =
judges.event_id AND events.created_by = auth.uid())`. -/
def judgesManageUsing (s : DBState) (c : AuthCtx) (row : JudgeRow) : Bool :=
  s.events.any fun e => sqlEq (some e.id) row.event_id && sqlEq e.created_by c.uid

/-- USING clause of policy "Judges can view their own profile by token"
(`FOR SELECT TO anon, authenticated`): `USING (true)`. -/
def judgesTokenViewUsing (_s : DBState) (_c : AuthCtx) (_row : JudgeRow) : Bool :=
  true

/-- Permissive-policy disjunction for `SELECT` on `judges`: the manage policy
applies only to the `authenticated` role; the token-view policy applies to
both `anon` and `authenticated`. -/
def judgesSelectAllowed (s : DBState) (c : AuthCtx) (row : JudgeRow) : Bool :=
  (decide (c.role = Role.authenticated) && judgesManageUsing s c row) ||
    judgesTokenViewUsing s c row

/-- USING clause of policy "Judges can manage their own scores"
(`FOR ALL TO anon, authenticated`): `USING (true)`. -/
def scoresManageUsing (_s : DBState) (_c : AuthCtx) (_row : ScoreRow) : Bool :=
  true

/-- WITH CHECK clause of policy "Judges can manage their own scores": `WITH CHECK (true)`. -/
def scoresManageCheck (_s : DBState) (_c : AuthCtx) (_row : ScoreRow) : Bool :=
  true

/-- USING clause of policy "Event owners can view all scores"
(`FOR SELECT TO authenticated`): `EXISTS (SELECT 1 FROM teams t JOIN events e
ON e.id = t.event_id WHERE t.id = scores.team_id AND e.created_by = auth.uid())`. -/
def scoresOwnerViewUsing (s : DBState) (c : AuthCtx) (row : ScoreRow) : Bool :=
  s.teams.any fun t =>
    sqlEq (some t.id) row.team_id &&
      s.events.any fun e => sqlEq (some e.id) t.event_id && sqlEq e.created_by c.uid

/-- `INSERT` on `scores`: the new row must pass the WITH CHECK clause of some
applicable permissive policy; only the manage policy covers `INSERT`. -/
def scoresInsertAllowed (s : DBState) (c : AuthCtx) (row : ScoreRow) : Bool :=
  scoresManageCheck s c row

/-- `UPDATE` on `scores`: the old row must pass USING and the new row WITH CHECK
of an applicable permissive policy; only the manage policy covers `UPDATE`. -/
def scoresUpdateAllowed (s : DBState) (c : AuthCtx) (oldRow newRow : ScoreRow) : Bool :=
  scoresManageUsing s c oldRow && scoresManageCheck s c newRow

/-- `DELETE` on `scores`: the row must pass USING of an applicable permissive
policy; only the manage policy covers `DELETE`. -/
def scoresDeleteAllowed (s : DBState) (c : AuthCtx) (row : ScoreRow) : Bool :=
  scoresManageUsing s c row

/-- `SELECT` on `scores`: disjunction of the manage policy (both roles) and the
owner-view policy (`authenticated` only). -/
def scoresSelectAllowed (s : DBState) (c : AuthCtx) (row : ScoreRow) : Bool :=
  scoresManageUsing s c row ||
    (decide (c.role = Role.authenticated) && scoresOwnerViewUsing s c row)

/-- The anonymous caller holding no session and presenting no token. -/
def anonCtx : AuthCtx :=
  { role := Role.anon, uid := none }

/-! ### Deleting an event: cascade semantics of the foreign keys -/

/-- Whether a nullable foreign-key column references one of the listed
(deleted) primary keys.  A NULL reference references nothing. -/
def refDead (x : Option Nat) (dead : List Nat) : Bool :=
  match x with
  | some v => dead.any fun d => decide (d = v)
  | none => false

/-- Primary keys of the category rows a delete of event `e` cascades away. -/
def deadCategoryIds (s : DBState) (e : Nat) : List Nat :=
  (s.categories.filter fun c => sqlEq c.event_id (some e)).map (·.id)

/-- Primary keys of the team rows a delete of event `e` cascades away. -/
def deadTeamIds (s : DBState) (e : Nat) : List Nat :=
  (s.teams.filter fun t => sqlEq t.event_id (some e)).map (·.id)

/-- Primary keys of the judge rows a delete of event `e` cascades away. -/
def deadJudgeIds (s : DBState) (e : Nat) : List Nat :=
  (s.judges.filter fun j => sqlEq j.event_id (some e)).map (·.id)

/-- Primary keys of the scoring_rounds rows a delete of event `e` cascades away. -/
def deadRoundIds (s : DBState) (e : Nat) : List Nat :=
  (s.scoring_rounds.filter fun r => sqlEq r.event_id (some e)).map (·.id)

/-- The row set after `DELETE FROM events WHERE id = e` has propagated through
every `ON DELETE CASCADE` edge of the schema: categories, teams, judges and
scoring_rounds cascade from events; judge_assignments cascade from judges,
categories and teams; scores cascade from judges, teams, categories and
scoring_rounds; normalized_scores from judges, teams and scoring_rounds;
final_results from events and teams.  (`teams.category_id` has no cascade
action and removes nothing.) -/
def deleteEventCascade (s : DBState) (e : Nat) : DBState :=
  let deadCats := deadCategoryIds s e
  let deadTeams := deadTeamIds s e
  let deadJudges := deadJudgeIds s e
  let deadRounds := deadRoundIds s e
  { events := s.events.filter fun x => x.id ≠ e
    categories := s.categories.filter fun c => !sqlEq c.event_id (some e)
    teams := s.teams.filter fun t => !sqlEq t.event_id (some e)
    judges := s.judges.filter fun j => !sqlEq j.event_id (some e)
    scoring_rounds := s.scoring_rounds.filter fun r => !sqlEq r.event_id (some e)
    judge_assignments := s.judge_assignments.filter fun a =>
      !(refDead a.judge_id deadJudges || refDead a.category_id deadCats ||
        refDead a.team_id deadTeams)
    scores := s.scores.filter fun sc =>
      !(refDead sc.judge_id deadJudges || refDead sc.team_id deadTeams ||
        refDead sc.category_id deadCats || refDead sc.round_id deadRounds)
    normalized_scores := s.normalized_scores.filter fun n =>
      !(refDead n.judge_id deadJudges || refDead n.team_id deadTeams ||
        refDead n.round_id deadRounds)
    final_results := s.final_results.filter fun f =>
      !(sqlEq f.event_id (some e) || refDead f.team_id deadTeams) }

/-- `DELETE FROM events WHERE id = e`.  After the cascade, the one foreign key
of the schema without a cascade action — `teams.category_id REFERENCES
categories(id)`, default NO ACTION — is checked at end of statement: if a
surviving team still references a deleted category, the statement fails
(`none`). -/
def deleteEvent (s : DBState) (e : Nat) : Option DBState :=
  let deadCats := deadCategoryIds s e
  let s' := deleteEventCascade s e
  if s'.teams.all fun t => !refDead t.category_id deadCats then
    some s'
  else
    none

/-! ### Inserting a team, inserting a scoring round -/

/-- A nullable foreign key resolves against the listed primary keys: a NULL
reference always resolves, a set one must name an existing key. -/
def fkResolves (x : Option Nat) (keys : List Nat) : Bool :=
  match x with
  | none => true
  | some v => keys.any fun k => decide (k = v)

/-- Foreign-key admission test for `INSERT` into `teams`: `event_id` (nullable)
must reference an existing event when set, and `category_id` (nullable) must
reference an existing category when set.  The schema states no relation
between the team's event and the referenced category's event. -/
def teamInsertCheck (s : DBState) (t : TeamRow) : Bool :=
  fkResolves t.event_id (s.events.map (·.id)) &&
    fkResolves t.category_id (s.categories.map (·.id))

/-- `INSERT` into `teams`: accepted exactly when the foreign keys resolve. -/
def insertTeam (s : DBState) (t : TeamRow) : Option DBState :=
  if teamInsertCheck s t then some { s with teams := s.teams ++ [t] } else none

/-- The same-event invariant the specification ascribes to `teams`: whenever
`category_id` is set, the referenced category's `event_id` equals the team's
`event_id`.  (Stated from the spec for comparison; the schema contains no
such constraint.) -/
def teamCategorySameEvent (s : DBState) : Prop :=
  ∀ t ∈ s.teams, ∀ c ∈ s.categories,
    t.category_id = some c.id → t.event_id = c.event_id

/-- `DEFAULT 'pending'` of `scoring_rounds.status`. -/
def scoringRoundStatusDefault : String :=
  "pending"

/-- Admission test for `INSERT` into `scoring_rounds`: `event_id` must resolve
when set, and `UNIQUE(event_id, round_number)` must not collide (NULLs
distinct).  The schema places no constraint on `status`. -/
def scoringRoundInsertCheck (s : DBState) (r : ScoringRoundRow) : Bool :=
  fkResolves r.event_id (s.events.map (·.id)) &&
    s.scoring_rounds.all fun x =>
      !(sqlEq x.event_id r.event_id && decide (x.round_number = r.round_number))

/-- `INSERT` into `scoring_rounds`. -/
def insertScoringRound (s : DBState) (r : ScoringRoundRow) : Option DBState :=
  if scoringRoundInsertCheck s r then
    some { s with scoring_rounds := s.scoring_rounds ++ [r] }
  else
    none

/-! ### The `send-judge-invitation` edge function -/

/-- The five fields of the parsed request body (interface `InvitationRequest`). -/
structure InvitationRequest where
  judgeName : String
  judgeEmail : String
  eventName : String
  accessToken : String
  dashboardUrl : String
  deriving Repr, DecidableEq

/-- Literal chunk of the email template before the first `${eventName}`. -/
def invitationHtml1 : String :=
  "\n      <html>\n        <body style=\"font-family: Arial, sans-serif; max-width: 600px; margin: 0 auto; padding: 20px;\">\n          <h2 style=\"color: #2563eb;\">Judge Invitation - "

/-- Literal chunk between `${eventName}` and `${judgeName}`. -/
def invitationHtml2 : String :=
  "</h2>\n          <p>Dear "

/-- Literal chunk between `${judgeName}` and the second `${eventName}`. -/
def invitationHtml3 : String :=
  ",</p>\n          <p>You have been invited to judge the event: <strong>"

/-- Literal chunk between the second `${eventName}` and `${dashboardUrl}`. -/
def invitationHtml4 : String :=
  "</strong></p>\n          <p>Please use the link below to access your judging dashboard:</p>\n          <div style=\"background-color: #f3f4f6; padding: 20px; border-radius: 8px; margin: 20px 0;\">\n            <p style=\"margin: 0;\"><strong>Dashboard Link:</strong></p>\n            <a href=\""

/-- Literal chunk between `${dashboardUrl}` and the first `${accessToken}`. -/
def invitationHtml5 : String :=
  "?token="

/-- Literal chunk between the first and the second `${accessToken}`. -/
def invitationHtml6 : String :=
  "\"\n               style=\"display: inline-block; margin-top: 10px; padding: 12px 24px; background-color: #2563eb; color: white; text-decoration: none; border-radius: 6px;\">\n              Access Judging Dashboard\n            </a>\n          </div>\n          <p style=\"color: #6b7280; font-size: 14px;\">\n            Your access token: <code style=\"background-color: #f3f4f6; padding: 4px 8px; border-radius: 4px;\">"

/-- Literal chunk after the second `${accessToken}`. -/
def invitationHtml7 : String :=
  "</code>\n          </p>\n          <p>Best regards,<br/>Event Management Team</p>\n        </body>\n      </html>\n    "

/-- The rendered HTML email body (the template literal `emailContent`):
the literal chunks in source order, with each interpolation `${...}`
replaced by the corresponding request field. -/
def emailContent (r : InvitationRequest) : String :=
  invitationHtml1 ++ r.eventName ++ invitationHtml2 ++ r.judgeName ++
    invitationHtml3 ++ r.eventName ++ invitationHtml4 ++ r.dashboardUrl ++
    invitationHtml5 ++ r.accessToken ++ invitationHtml6 ++ r.accessToken ++
    invitationHtml7

/-- The JSON body of a response of the function: the keys it may set. -/
structure ResponseBody where
  success : Bool
  message : Option String
  preview : Option String
  error : Option String
  deriving Repr, DecidableEq

/-- An HTTP response of the function: status (`new Response` defaults to 200),
whether the CORS headers were attached (they always are), and the body
(`none` for the bare OPTIONS reply). -/
structure HttpResponse where
  status : Nat
  corsHeaders : Bool
  body : Option ResponseBody
  deriving Repr, DecidableEq

/-- JavaScript `error.message || "Failed to send invitation"`: the caught
exception's message when present and non-empty, the fallback otherwise. -/
def errorMessageOr (m : Option String) (dflt : String) : String :=
  match m with
  | some s => if s = "" then dflt else s
  | none => dflt

/-- The request handler (`Deno.serve` callback).  `body` is the outcome of
`await req.json()` together with the destructuring of the five fields:
`Except.ok` a parsed request, `Except.error` the message of the exception
thrown (parsing and rendering are total here, so the catch branch is reached
exactly when that step throws).  OPTIONS short-circuits to a bare 200. -/
def handleRequest (method : String) (body : Except (Option String) InvitationRequest) :
    HttpResponse :=
  if method = "OPTIONS" then
    { status := 200, corsHeaders := true, body := none }
  else
    match body with
    | Except.ok r =>
        { status := 200
          corsHeaders := true
          body := some
            { success := true
              message := some "Invitation email sent successfully"
              preview := some (emailContent r)
              error := none } }
    | Except.error em =>
        { status := 500
          corsHeaders := true
          body := some
            { success := false
              message := none
              preview := none
              error := some (errorMessageOr em "Failed to send invitation") } }

/-- `s` contains `t` as a substring. -/
def strContains (s t : String) : Prop :=
  ∃ a b, s = a ++ t ++ b

/-! ### The client state mirror's `loadData` -/

/-- JSON values (numbers as rationals). -/
inductive Json where
  | null
  | bool (b : Bool)
  | num (q : ℚ)
  | str (s : String)
  | arr (elems : List Json)
  | obj (fields : List (String × Json))

/-- What `localStorage.getItem(key)` hands to `JSON.parse` for one key:
the key can be absent (`getItem` returns `null`), hold text that is not
valid JSON, or hold the serialization of a JSON value. -/
inductive StoredVal where
  | absent
  | malformed
  | val (j : Json)

/-- `JSON.parse(localStorage.getItem(key))`: an absent key gives `null`,
which `JSON.parse` coerces to the text `"null"` and parses to the JSON null
value; malformed text throws a `SyntaxError`; valid text parses. -/
def parseStored : StoredVal → Except String Json
  | StoredVal.absent => Except.ok Json.null
  | StoredVal.malformed => Except.error "SyntaxError"
  | StoredVal.val j => Except.ok j

/-- JavaScript truthiness on JSON values: `null`, `false`, `0` and `\x22\x22`
are falsy; arrays and objects are truthy. -/
def jsFalsy : Json → Bool
  | Json.null => true
  | Json.bool b => !b
  | Json.num q => decide (q = 0)
  | Json.str s => decide (s = "")
  | Json.arr _ => false
  | Json.obj _ => false

/-- One `setX(JSON.parse(localStorage.getItem(k)) || dflt)` step: parse the
stored value (propagating the exception) and fall back to the default when
the parsed value is falsy. -/
def loadKey (v : StoredVal) (dflt : Json) : Except String Json := do
  let j ← parseStored v
  pure (if jsFalsy j then dflt else j)

/-- The local-storage contents of the five mirrored keys. -/
structure LocalStorage where
  events : StoredVal
  teams : StoredVal
  judges : StoredVal
  categories : StoredVal
  evaluations : StoredVal

/-- The in-memory state the mirror holds after a successful load. -/
structure AppData where
  events : Json
  teams : Json
  judges : Json
  categories : Json
  evaluations : Json

/-- Default seed for `events`. -/
def defaultEvents : Json :=
  Json.arr [Json.obj [("id", Json.num 1), ("name", Json.str "Event 1"),
    ("description", Json.str "First event")]]

/-- Default seed for `teams`. -/
def defaultTeams : Json :=
  Json.arr [Json.obj [("id", Json.num 1), ("name", Json.str "Team A"),
      ("description", Json.str "Team Alpha")],
    Json.obj [("id", Json.num 2), ("name", Json.str "Team B"),
      ("description", Json.str "Team Beta")]]

/-- Default seed for `judges`. -/
def defaultJudges : Json :=
  Json.arr [Json.obj [("id", Json.num 1), ("name", Json.str "Judge 1"),
    ("description", Json.str "First judge")]]

/-- Default seed for `categories`. -/
def defaultCategories : Json :=
  Json.arr [Json.obj [("id", Json.num 1), ("name", Json.str "Idea"),
      ("weight", Json.num 1)],
    Json.obj [("id", Json.num 2), ("name", Json.str "Presentation"),
      ("weight", Json.num 1)],
    Json.obj [("id", Json.num 3), ("name", Json.str "Execution"),
      ("weight", Json.num 1)]]

/-- Default seed for `evaluations` (the empty array). -/
def defaultEvaluations : Json :=
  Json.arr []

/-- `loadData`: load the five keys in source order.  Any `JSON.parse` failure
propagates as an exception out of `loadData` — the source wraps none of the
parses in a try/catch.  (In the source each successful `setX` has already run
when a later key throws; the model keeps only the all-or-error outcome, which
is what the load-time behaviour of the claims is about.) -/
def loadData (ls : LocalStorage) : Except String AppData := do
  let ev ← loadKey ls.events defaultEvents
  let tm ← loadKey ls.teams defaultTeams
  let jd ← loadKey ls.judges defaultJudges
  let ct ← loadKey ls.categories defaultCategories
  let ev2 ← loadKey ls.evaluations defaultEvaluations
  pure { events := ev, teams := tm, judges := jd, categories := ct,
         evaluations := ev2 }

/-- The state `loadData` produces when nothing is stored. -/
def defaultAppData : AppData :=
  { events := defaultEvents, teams := defaultTeams, judges := defaultJudges,
    categories := defaultCategories, evaluations := defaultEvaluations }

/-! ### Concrete fixtures for witnesses and counterexamples -/

/-- The empty database. -/
def emptyDB : DBState :=
  { events := [], categories := [], teams := [], judges := [],
    judge_assignments := [], scoring_rounds := [], scores := [],
    normalized_scores := [], final_results := [] }

/-- A concrete event owned by user 7. -/
def evA : EventRow :=
  { id := 1, name := "Event A", status := "draft", created_by := some 7 }

/-- A second concrete event owned by user 8. -/
def evB : EventRow :=
  { id := 2, name := "Event B", status := "draft", created_by := some 8 }

/-- A concrete category of event 1. -/
def catA : CategoryRow :=
  { id := 10, event_id := some 1, name := "Software", weight := 1, criteria := "[]" }

/-- A score row whose value 11 lies outside `[0,10]`. -/
def scoreRow11 : ScoreRow :=
  { id := 1, judge_id := some 3, team_id := some 20, category_id := some 10,
    round_id := some 100, criterion_name := "innovation", score := 11,
    comments := none }

/-- A score row whose value 5 lies inside `[0,10]`. -/
def scoreRow5 : ScoreRow :=
  { scoreRow11 with id := 2, score := 5 }

/-- The concrete invitation request of the specification's example. -/
def anaRequest : InvitationRequest :=
  { judgeName := "Ana", judgeEmail := "a@x.com", eventName := "HackX",
    accessToken := "tok123", dashboardUrl := "https://d.example/judge" }

/-- A team of event 2 whose `category_id` points at category 10 of event 1. -/
def crossEventTeam : TeamRow :=
  { id := 20, event_id := some 2, name := "Team X", category_id := some 10 }

/-- A state holding both events and category 10 of event 1, with no teams. -/
def twoEventDB : DBState :=
  { emptyDB with events := [evA, evB], categories := [catA] }

/-- A scoring round of event 1 with the default status. -/
def roundBase : ScoringRoundRow :=
  { id := 101, event_id := some 1, round_number := 1, name := "Round 1",
    status := "pending" }

/-- The same round with a status outside {pending, active, completed}. -/
def bogusRound : ScoringRoundRow :=
  { roundBase with status := "bogus" }

/-- A state holding only event 1. -/
def oneEventDB : DBState :=
  { emptyDB with events := [evA] }

/-- A score row whose `judge_id` is NULL (the column is nullable). -/
def nullJudgeScoreA : ScoreRow :=
  { id := 31, judge_id := none, team_id := some 21, category_id := some 10,
    round_id := some 100, criterion_name := "innovation", score := 5,
    comments := none }

/-- A second score row with the same (NULL) key tuple and another value. -/
def nullJudgeScoreB : ScoreRow :=
  { nullJudgeScoreA with id := 32, score := 7 }

/-- A state where a team of event 2 references a category of event 1. -/
def crossRefDB : DBState :=
  { twoEventDB with teams := [crossEventTeam] }

/-- A team of event 1 in category 10. -/
def teamA : TeamRow :=
  { id := 21, event_id := some 1, name := "Team A1", category_id := some 10 }

/-- A judge of event 1. -/
def judgeA : JudgeRow :=
  { id := 3, event_id := some 1, name := "Judge J", email := "j@x.com",
    access_token := "tokJ", invitation_sent := false }

/-- An assignment of judge 3 to team 21 in category 10, round 1. -/
def assignA : JudgeAssignmentRow :=
  { id := 200, judge_id := some 3, category_id := some 10, team_id := some 21,
    round_number := 1 }

/-- A score of judge 3 for team 21 in round 101. -/
def scoreA : ScoreRow :=
  { id := 33, judge_id := some 3, team_id := some 21, category_id := some 10,
    round_id := some 101, criterion_name := "innovation", score := 5,
    comments := none }

/-- A normalized score of judge 3 for team 21 in round 101. -/
def normA : NormalizedScoreRow :=
  { id := 300, judge_id := some 3, team_id := some 21, round_id := some 101,
    raw_score := 5, normalized_score := 5, percentile := none, rank := none,
    selected_for_round2 := false }

/-- A final result of team 21 in event 1. -/
def finalA : FinalResultRow :=
  { id := 400, event_id := some 1, team_id := some 21, final_score := 5,
    final_rank := some 1, correlation_coefficient := none }

/-- A state with event 1 fully populated (every table) next to event 2. -/
def fullEventDB : DBState :=
  { events := [evA, evB], categories := [catA], teams := [teamA],
    judges := [judgeA], judge_assignments := [assignA],
    scoring_rounds := [roundBase], scores := [scoreA],
    normalized_scores := [normA], final_results := [finalA] }

/-- A resubmission of `scoreA`'s key tuple with a new value. -/
def scoreB : ScoreRow :=
  { scoreA with id := 34, score := 9 }

/-- Local storage with all five mirrored keys absent. -/
def allAbsent : LocalStorage :=
  { events := StoredVal.absent, teams := StoredVal.absent,
    judges := StoredVal.absent, categories := StoredVal.absent,
    evaluations := StoredVal.absent }

/-- Local storage whose `events` key holds text that is not valid JSON. -/
def badEventsLS : LocalStorage :=
  { allAbsent with events := StoredVal.malformed }

/-- Characterization of `fkResolves`. -/
theorem fkResolves_iff (x : Option Nat) (keys : List Nat) :
    fkResolves x keys = true ↔ (x = none ∨ ∃ k ∈ keys, x = some k) := by
  cases x with
  | none => simp [fkResolves]
  | some v => simp [fkResolves, List.any_eq_true]

/-! ### C1 -/

/-- C1: an attempted insert of a `scores` row whose value lies outside the
closed interval `[0,10]` is rejected — the table's check constraint fails —
and for every value inside `[0,10]` the bound check passes: the check
constraint holds exactly on `[0,10]`. -/
theorem score_insert_rejected_outside_bounds :
    ∀ (rows : List ScoreRow) (r : ScoreRow),
      (scoreCheckConstraint r.score = true ↔ (0 ≤ r.score ∧ r.score ≤ 10)) ∧
      (¬(0 ≤ r.score ∧ r.score ≤ 10) →
        insertScore rows r = none ∧ submitScore rows r = none) := by
  intro rows r
  have hiff : scoreCheckConstraint r.score = true ↔ (0 ≤ r.score ∧ r.score ≤ 10) := by
    simp [scoreCheckConstraint]
  refine ⟨hiff, fun h => ?_⟩
  have hc : scoreCheckConstraint r.score = false := by
    cases hb : scoreCheckConstraint r.score
    · rfl
    · exact absurd (hiff.mp hb) h
  exact ⟨by simp [insertScore, hc], by simp [submitScore, hc]⟩

/-- Witness for C1 at score 11 (rejected) and score 5 (check passes). -/
theorem score_insert_rejected_outside_bounds_witness :
    (insertScore [] scoreRow11 = none ∧ submitScore [] scoreRow11 = none) ∧
      scoreCheckConstraint scoreRow5.score = true :=
  ⟨(score_insert_rejected_outside_bounds [] scoreRow11).2 (by decide),
    (score_insert_rejected_outside_bounds [] scoreRow5).1.mpr (by decide)⟩

/-! ### C3 -/

/-- C3: the row-level-security write policy on `scores` ("Judges can manage
their own scores") is the constant-true predicate: for every caller context —
any role, any `auth.uid()`, in particular the anonymous caller with no
session — and every row and state, insert, update and delete on `scores` are
permitted; no clause of any policy relates the caller to a judge token. -/
theorem scores_write_policy_constant_true :
    ∀ (s : DBState) (c : AuthCtx) (row oldRow newRow : ScoreRow),
      scoresInsertAllowed s c row = true ∧
      scoresUpdateAllowed s c oldRow newRow = true ∧
      scoresDeleteAllowed s c row = true ∧
      scoresInsertAllowed s anonCtx row = true := by
  intro s c row oldRow newRow
  exact ⟨rfl, rfl, rfl, rfl⟩

/-! ### C10 -/

/-- C10: the anonymous-role SELECT policy on `judges` ("Judges can view their
own profile by token") has the constant-true USING clause, so an anonymous
caller presenting no token can read every judge row; in particular the
access tokens it can read are all judges' access tokens. -/
theorem judges_select_open_to_anon :
    ∀ (s : DBState) (row : JudgeRow),
      judgesSelectAllowed s anonCtx row = true ∧
      (s.judges.filter (judgesSelectAllowed s anonCtx)).map (·.access_token) =
        s.judges.map (·.access_token) := by
  intro s row
  constructor
  · simp [judgesSelectAllowed, judgesTokenViewUsing]
  · have hall : ∀ x ∈ s.judges, judgesSelectAllowed s anonCtx x = true := by
      intro x _
      simp [judgesSelectAllowed, judgesTokenViewUsing]
    rw [List.filter_eq_self.mpr hall]

/-! ### C7 and C8: the `send-judge-invitation` function -/

/-- The email body, split at the first interpolated access token. -/
theorem emailContent_token_split (r : InvitationRequest) :
    emailContent r =
      (invitationHtml1 ++ r.eventName ++ invitationHtml2 ++ r.judgeName ++
        invitationHtml3 ++ r.eventName ++ invitationHtml4 ++ r.dashboardUrl ++
        invitationHtml5) ++ r.accessToken ++
      (invitationHtml6 ++ r.accessToken ++ invitationHtml7) := by
  simp [emailContent, String.append_assoc]

/-- The email body, split at the first interpolated event name. -/
theorem emailContent_event_split (r : InvitationRequest) :
    emailContent r =
      invitationHtml1 ++ r.eventName ++
      (invitationHtml2 ++ r.judgeName ++ invitationHtml3 ++ r.eventName ++
        invitationHtml4 ++ r.dashboardUrl ++ invitationHtml5 ++ r.accessToken ++
        invitationHtml6 ++ r.accessToken ++ invitationHtml7) := by
  simp [emailContent, String.append_assoc]

/-- The rendered email body contains the access token. -/
theorem emailContent_has_token (r : InvitationRequest) :
    strContains (emailContent r) r.accessToken :=
  ⟨_, _, emailContent_token_split r⟩

/-- The rendered email body contains the event name. -/
theorem emailContent_has_event (r : InvitationRequest) :
    strContains (emailContent r) r.eventName :=
  ⟨_, _, emailContent_event_split r⟩

/-- Shape of the success response for any parsed five-field request. -/
theorem handleRequest_post_ok (r : InvitationRequest) :
    (handleRequest "POST" (Except.ok r)).status = 200 ∧
      (handleRequest "POST" (Except.ok r)).body = some
        { success := true, message := some "Invitation email sent successfully",
          preview := some (emailContent r), error := none } :=
  ⟨rfl, rfl⟩

/-- C7: every well-formed five-field POST is answered with HTTP 200, a body
whose `success` is true and whose `message` is present, and a `preview` HTML
string containing the access token and the event name; in particular the
specification's example request yields a preview containing "tok123" and
"HackX". -/
theorem invitation_request_success :
    (∀ r : InvitationRequest,
      (handleRequest "POST" (Except.ok r)).status = 200 ∧
      ∃ body, (handleRequest "POST" (Except.ok r)).body = some body ∧
        body.success = true ∧ body.message.isSome = true ∧
        ∃ p, body.preview = some p ∧
          strContains p r.accessToken ∧ strContains p r.eventName) ∧
    ((handleRequest "POST" (Except.ok anaRequest)).status = 200 ∧
      ∃ body, (handleRequest "POST" (Except.ok anaRequest)).body = some body ∧
        body.success = true ∧ body.message.isSome = true ∧
        ∃ p, body.preview = some p ∧
          strContains p "tok123" ∧ strContains p "HackX") := by
  have hgen : ∀ r : InvitationRequest,
      (handleRequest "POST" (Except.ok r)).status = 200 ∧
      ∃ body, (handleRequest "POST" (Except.ok r)).body = some body ∧
        body.success = true ∧ body.message.isSome = true ∧
        ∃ p, body.preview = some p ∧
          strContains p r.accessToken ∧ strContains p r.eventName := by
    intro r
    refine ⟨rfl, ⟨_, rfl, rfl, rfl, ⟨emailContent r, rfl,
      emailContent_has_token r, emailContent_has_event r⟩⟩⟩
  exact ⟨hgen, hgen anaRequest⟩

/-- C8: for every non-OPTIONS request, a thrown exception during parsing or
rendering is answered with HTTP 500 and the body
`{success: false, error: <message string>}`; the handler is a total function
of the request, so no exception propagates. -/
theorem invitation_error_caught :
    ∀ (method : String), method ≠ "OPTIONS" → ∀ em : Except (Option String) InvitationRequest,
      (∀ e, em = Except.error e →
        handleRequest method em =
          { status := 500, corsHeaders := true,
            body := some { success := false, message := none, preview := none,
                           error := some (errorMessageOr e "Failed to send invitation") } }) ∧
      ∃ resp, handleRequest method em = resp := by
  intro method hm em
  constructor
  · intro e he
    subst he
    simp [handleRequest, hm]
  · exact ⟨_, rfl⟩

/-- Witness for C8: a POST whose parse throws "boom" yields the 500 body. -/
theorem invitation_error_caught_witness :
    handleRequest "POST" (Except.error (some "boom")) =
      { status := 500, corsHeaders := true,
        body := some { success := false, message := none, preview := none,
                       error := some (errorMessageOr (some "boom") "Failed to send invitation") } } :=
  (invitation_error_caught "POST" (by decide) (Except.error (some "boom"))).1
    (some "boom") rfl

/-! ### C5: the team/category same-event invariant -/

/-- Counterexample to C5 as stated: the schema accepts an insert of a team
whose `category_id` references a category of a different event, so the
same-event invariant is not preserved by operations on `teams`.  Starting
from a state satisfying the invariant vacuously, the accepted insert
produces a state violating it. -/
theorem team_cross_event_category_accepted :
    teamCategorySameEvent twoEventDB ∧
    insertTeam twoEventDB crossEventTeam =
      some { twoEventDB with teams := [crossEventTeam] } ∧
    crossEventTeam.category_id = some catA.id ∧
    catA ∈ ({ twoEventDB with teams := [crossEventTeam] } : DBState).categories ∧
    crossEventTeam ∈ ({ twoEventDB with teams := [crossEventTeam] } : DBState).teams ∧
    crossEventTeam.event_id ≠ catA.event_id := by
  refine ⟨?_, by decide, rfl, by decide, by decide, by decide⟩
  intro t ht
  simp [twoEventDB, emptyDB] at ht

/-- C5 amended: `teams.category_id` is optional, and when set the foreign key
requires only that the referenced category exist; the schema does not
require the referenced category to belong to the team's event.  The insert
admission test holds exactly when both nullable foreign keys resolve. -/
theorem team_insert_checks_fk_only :
    ∀ (s : DBState) (t : TeamRow),
      teamInsertCheck s t = true ↔
        ((t.event_id = none ∨ ∃ e ∈ s.events, t.event_id = some e.id) ∧
         (t.category_id = none ∨ ∃ c ∈ s.categories, t.category_id = some c.id)) := by
  intro s t
  rw [teamInsertCheck, Bool.and_eq_true, fkResolves_iff, fkResolves_iff]
  simp [List.mem_map]

/-! ### C6: scoring-round status -/

/-- Counterexample to C6 as stated: the schema of `scoring_rounds` places no
constraint on `status`, so an insert carrying the status "bogus" — none of
'pending', 'active', 'completed' — is accepted and stored. -/
theorem scoring_round_bogus_status_accepted :
    insertScoringRound oneEventDB bogusRound =
      some { oneEventDB with scoring_rounds := [bogusRound] } ∧
    bogusRound ∈ ({ oneEventDB with scoring_rounds := [bogusRound] } : DBState).scoring_rounds ∧
    bogusRound.status ≠ "pending" ∧ bogusRound.status ≠ "active" ∧
    bogusRound.status ≠ "completed" := by
  refine ⟨by decide, by decide, by decide, by decide, by decide⟩

/-- C6 amended: `scoring_rounds.status` merely defaults to 'pending'; the
admission test for inserts never reads `status`, so a row differing only in
status is accepted whenever the original is, whatever string it carries. -/
theorem scoring_round_status_unconstrained :
    ∀ (s : DBState) (r : ScoringRoundRow) (st : String),
      scoringRoundInsertCheck s { r with status := st } = scoringRoundInsertCheck s r ∧
      (scoringRoundInsertCheck s r = true →
        insertScoringRound s { r with status := st } =
          some { s with scoring_rounds := s.scoring_rounds ++ [{ r with status := st }] }) ∧
      scoringRoundStatusDefault = "pending" := by
  intro s r st
  refine ⟨rfl, fun h => ?_, rfl⟩
  rw [insertScoringRound]
  have hst : scoringRoundInsertCheck s { r with status := st } = true := h
  rw [hst]
  simp

/-- Witness for C6 amended at the concrete "bogus" round. -/
theorem scoring_round_status_unconstrained_witness :
    insertScoringRound oneEventDB { roundBase with status := "bogus" } =
      some { oneEventDB with
             scoring_rounds := oneEventDB.scoring_rounds ++ [{ roundBase with status := "bogus" }] } :=
  (scoring_round_status_unconstrained oneEventDB roundBase "bogus").2.1 (by decide)

/-! ### C9: the client mirror load -/

/-- Counterexample to C9 as stated: when the stored `events` text fails to
parse as JSON, `loadData` does not fall back to the default seed — the
`SyntaxError` thrown by `JSON.parse` propagates out of `loadData`. -/
theorem loadData_malformed_throws :
    loadData badEventsLS = Except.error "SyntaxError" ∧
    ∀ a : AppData, loadData badEventsLS ≠ Except.ok a := by
  refine ⟨rfl, fun a h => ?_⟩
  rw [show loadData badEventsLS = Except.error "SyntaxError" from rfl] at h
  exact Except.noConfusion h

/-- C9 amended: on load, each absent key falls back to its hardcoded default
seed (all five keys absent yields exactly the seed state), while a stored
value that fails to parse as JSON makes the per-key load throw, and the
exception propagates out of `loadData` — there is no silent fallback for
malformed data. -/
theorem loadData_defaults_absent_throws_malformed :
    loadData allAbsent = Except.ok defaultAppData ∧
    (∀ dflt, loadKey StoredVal.absent dflt = Except.ok dflt) ∧
    (∀ dflt, loadKey StoredVal.malformed dflt = Except.error "SyntaxError") ∧
    (∀ ls : LocalStorage, ls.events = StoredVal.malformed →
      loadData ls = Except.error "SyntaxError") := by
  refine ⟨rfl, fun d => rfl, fun d => rfl, fun ls h => ?_⟩
  simp only [loadData, loadKey, h, parseStored]
  rfl

/-- Witness for C9 amended at the concrete malformed store. -/
theorem loadData_defaults_absent_throws_malformed_witness :
    loadData allAbsent = Except.ok defaultAppData ∧
    loadData badEventsLS = Except.error "SyntaxError" :=
  ⟨loadData_defaults_absent_throws_malformed.1,
    loadData_defaults_absent_throws_malformed.2.2.2 badEventsLS rfl⟩

/-! ### C2: uniqueness of score rows per key tuple -/

/-- Two rows carrying the same fully-non-NULL key tuple collide under the
unique constraint. -/
theorem conflict_of_keyMatch {x y : ScoreRow} {j t rd : Nat} {c : String}
    (hx : scoreKeyMatch x j t rd c = true) (hy : scoreKeyMatch y j t rd c = true) :
    scoreUniqueConflict x y = true := by
  simp only [scoreKeyMatch, Bool.and_eq_true, decide_eq_true_eq] at hx hy
  obtain ⟨⟨⟨hx1, hx2⟩, hx3⟩, hx4⟩ := hx
  obtain ⟨⟨⟨hy1, hy2⟩, hy3⟩, hy4⟩ := hy
  simp [scoreUniqueConflict, hx1, hx2, hx3, hx4, hy1, hy2, hy3, hy4, sqlEq]

/-- The value overwrite performed by an upsert preserves the key fields. -/
theorem keyMatch_overwrite (x r : ScoreRow) (j t rd : Nat) (c : String) :
    scoreKeyMatch
      (if scoreUniqueConflict x r then
        { x with score := r.score, comments := r.comments }
      else x) j t rd c = scoreKeyMatch x j t rd c := by
  by_cases h : scoreUniqueConflict x r = true
  · rw [if_pos h]
    rfl
  · rw [if_neg h]

/-- Counting key-tuple occurrences across an appended row. -/
theorem scoreKeyCount_append (rows : List ScoreRow) (r : ScoreRow) (j t rd : Nat)
    (c : String) :
    scoreKeyCount (rows ++ [r]) j t rd c =
      scoreKeyCount rows j t rd c + (if scoreKeyMatch r j t rd c then 1 else 0) := by
  simp only [scoreKeyCount, List.filter_append, List.length_append]
  by_cases h : scoreKeyMatch r j t rd c = true <;> simp [h]

/-- A map that preserves the counted predicate preserves the filtered length. -/
theorem length_filter_map_of_pred_eq {α : Type} (f : α → α) (p : α → Bool)
    (hf : ∀ x, p (f x) = p x) (l : List α) :
    ((l.map f).filter p).length = (l.filter p).length := by
  induction l with
  | nil => rfl
  | cons a as ih =>
    simp only [List.map_cons, List.filter_cons, hf a]
    by_cases h : p a = true
    · simp [h, ih]
    · simp [h, ih]

/-- Filtering a list again can only shrink the count of any predicate. -/
theorem length_filter_and_le {α : Type} (p q : α → Bool) (l : List α) :
    (l.filter fun a => p a && q a).length ≤ (l.filter p).length := by
  induction l with
  | nil => exact Nat.le_refl 0
  | cons a as ih =>
    simp only [List.filter_cons]
    by_cases hp : p a = true
    · by_cases hq : q a = true
      · have hpq : (p a && q a) = true := by simp [hp, hq]
        rw [if_pos hpq, if_pos hp]
        simpa using Nat.succ_le_succ ih
      · have hpq : ¬((p a && q a) = true) := by simp [hp, hq]
        rw [if_neg hpq, if_pos hp]
        simp only [List.length_cons]
        exact Nat.le_succ_of_le ih
    · have hpa : p a = false := by simpa using hp
      have hpq : ¬((p a && q a) = true) := by simp [hpa]
      rw [if_neg hpq, if_neg hp]
      exact ih

/-- Deleting rows can only shrink the count of a key tuple. -/
theorem scoreKeyCount_filter_le (rows : List ScoreRow) (q : ScoreRow → Bool)
    (j t rd : Nat) (c : String) :
    scoreKeyCount (rows.filter q) j t rd c ≤ scoreKeyCount rows j t rd c := by
  unfold scoreKeyCount
  rw [List.filter_filter]
  exact length_filter_and_le _ q rows

/-- When no existing row collides with `r` and `r` carries the key tuple,
no existing row carries the tuple. -/
theorem scoreKeyCount_eq_zero_of_all_not_conflict {rows : List ScoreRow}
    {r : ScoreRow} {j t rd : Nat} {c : String}
    (hall : (rows.all fun x => !scoreUniqueConflict x r) = true)
    (hr : scoreKeyMatch r j t rd c = true) :
    scoreKeyCount rows j t rd c = 0 := by
  rw [scoreKeyCount, List.length_eq_zero, List.filter_eq_nil_iff]
  intro x hx hxk
  have hconf := conflict_of_keyMatch hxk hr
  have hnc := List.all_eq_true.mp hall x hx
  rw [hconf] at hnc
  exact absurd hnc (by simp)

/-- In every reachable state of the `scores` table, at most one row carries
any given fully-non-NULL key tuple. -/
theorem reachable_scoreKeyCount_le_one :
    ∀ {s : List ScoreRow}, ScoresReachable s →
      ∀ (j t rd : Nat) (c : String), scoreKeyCount s j t rd c ≤ 1 := by
  intro s hs
  induction hs with
  | empty =>
    intro j t rd c
    simp [scoreKeyCount]
  | @insert s0 r s1 hs0 heq ih =>
    intro j t rd c
    rw [insertScore] at heq
    by_cases hcnd : (scoreCheckConstraint r.score &&
        s0.all fun x => !scoreUniqueConflict x r) = true
    · rw [if_pos hcnd] at heq
      rw [Bool.and_eq_true] at hcnd
      obtain ⟨hck, hall⟩ := hcnd
      obtain rfl : s0 ++ [r] = s1 := Option.some.inj heq
      rw [scoreKeyCount_append]
      by_cases hk : scoreKeyMatch r j t rd c = true
      · rw [scoreKeyCount_eq_zero_of_all_not_conflict hall hk, if_pos hk]
      · rw [if_neg hk]
        exact ih j t rd c
    · rw [if_neg hcnd] at heq
      exact absurd heq (by simp)
  | @submit s0 r s1 hs0 heq ih =>
    intro j t rd c
    by_cases hchk : scoreCheckConstraint r.score = true
    · by_cases hany : (s0.any fun x => scoreUniqueConflict x r) = true
      · have heq2 : submitScore s0 r = some (s0.map fun x =>
            if scoreUniqueConflict x r then
              { x with score := r.score, comments := r.comments }
            else x) := by
          rw [submitScore, hchk]
          simp [hany]
        rw [heq2] at heq
        obtain rfl := Option.some.inj heq
        rw [show scoreKeyCount (s0.map fun x =>
            if scoreUniqueConflict x r then
              { x with score := r.score, comments := r.comments }
            else x) j t rd c = scoreKeyCount s0 j t rd c from
          length_filter_map_of_pred_eq _ _ (fun x => keyMatch_overwrite x r j t rd c) s0]
        exact ih j t rd c
      · have hall : (s0.all fun x => !scoreUniqueConflict x r) = true := by
          rw [List.all_eq_true]
          intro x hx
          cases hcf : scoreUniqueConflict x r
          · rfl
          · exact absurd (List.any_eq_true.mpr ⟨x, hx, hcf⟩) hany
        have heq2 : submitScore s0 r = some (s0 ++ [r]) := by
          rw [submitScore, hchk]
          simp [hany]
        rw [heq2] at heq
        obtain rfl := Option.some.inj heq
        rw [scoreKeyCount_append]
        by_cases hk : scoreKeyMatch r j t rd c = true
        · rw [scoreKeyCount_eq_zero_of_all_not_conflict hall hk, if_pos hk]
        · rw [if_neg hk]
          exact ih j t rd c
    · have : submitScore s0 r = none := by
        rw [submitScore]
        simp [hchk]
      rw [this] at heq
      exact absurd heq (by simp)
  | delete p hs0 ih =>
    intro j t rd c
    exact Nat.le_trans (scoreKeyCount_filter_le _ _ j t rd c) (ih j t rd c)

/-- Counterexample to C2 as stated: the four key columns of `scores` are
nullable and SQL unique indexes treat NULLs as distinct, so two submissions
carrying the same (NULL, team, round, criterion) tuple both insert — the
reachable state holds two distinct rows with the same tuple, and the second
submission neither replaced the first value nor was rejected. -/
theorem score_null_tuple_duplicated :
    submitScore [] nullJudgeScoreA = some [nullJudgeScoreA] ∧
    submitScore [nullJudgeScoreA] nullJudgeScoreB =
      some [nullJudgeScoreA, nullJudgeScoreB] ∧
    ScoresReachable [nullJudgeScoreA, nullJudgeScoreB] ∧
    scoreTuple nullJudgeScoreA = scoreTuple nullJudgeScoreB ∧
    nullJudgeScoreA ≠ nullJudgeScoreB ∧
    nullJudgeScoreA.score ≠ nullJudgeScoreB.score := by
  refine ⟨by decide, by decide, ?_, by decide, by decide, by decide⟩
  exact @ScoresReachable.submit [nullJudgeScoreA] nullJudgeScoreB
    [nullJudgeScoreA, nullJudgeScoreB]
    (@ScoresReachable.submit [] nullJudgeScoreA [nullJudgeScoreA]
      ScoresReachable.empty (by decide))
    (by decide)

/-- C2 amended: in every reachable state, at most one `scores` row carries any
key tuple whose id components are all non-NULL, and a submission colliding
with existing rows under the unique constraint replaces their stored value
in place — same row count, colliding rows now carry the new value — rather
than creating a second row.  (Tuples with a NULL component are exempt: SQL
UNIQUE treats NULLs as distinct.) -/
theorem score_upsert_unique_per_nonnull_tuple :
    (∀ s : List ScoreRow, ScoresReachable s →
      ∀ (j t rd : Nat) (c : String), scoreKeyCount s j t rd c ≤ 1) ∧
    (∀ (s : List ScoreRow) (r x : ScoreRow), x ∈ s →
      scoreUniqueConflict x r = true → scoreCheckConstraint r.score = true →
      submitScore s r = some (s.map fun y =>
        if scoreUniqueConflict y r then
          { y with score := r.score, comments := r.comments }
        else y) ∧
      (s.map fun y =>
        if scoreUniqueConflict y r then
          { y with score := r.score, comments := r.comments }
        else y).length = s.length ∧
      (∀ y ∈ (s.map fun y =>
        if scoreUniqueConflict y r then
          { y with score := r.score, comments := r.comments }
        else y), scoreUniqueConflict y r = true → y.score = r.score)) := by
  constructor
  · intro s hs
    exact reachable_scoreKeyCount_le_one hs
  · intro s r x hx hconf hchk
    have hany : (s.any fun y => scoreUniqueConflict y r) = true :=
      List.any_eq_true.mpr ⟨x, hx, hconf⟩
    refine ⟨?_, List.length_map _ _, ?_⟩
    · rw [submitScore, hchk]
      simp [hany]
    · intro y hy hyc
      obtain ⟨z, hz, hzy⟩ := List.mem_map.mp hy
      by_cases hzc : scoreUniqueConflict z r = true
      · rw [if_pos hzc] at hzy
        rw [← hzy]
      · rw [if_neg hzc] at hzy
        rw [← hzy] at hyc
        exact absurd hyc hzc

/-- Witness for C2 amended: the uniqueness bound at the one-row reachable
state, and the in-place overwrite of a resubmission of the same tuple. -/
theorem score_upsert_unique_per_nonnull_tuple_witness :
    scoreKeyCount [scoreA] 3 21 101 "innovation" ≤ 1 ∧
    submitScore [scoreA] scoreB = some ([scoreA].map fun y =>
      if scoreUniqueConflict y scoreB then
        { y with score := scoreB.score, comments := scoreB.comments }
      else y) :=
  ⟨score_upsert_unique_per_nonnull_tuple.1 [scoreA]
      (@ScoresReachable.insert [] scoreA [scoreA]
        ScoresReachable.empty (by decide)) 3 21 101 "innovation",
    (score_upsert_unique_per_nonnull_tuple.2 [scoreA] scoreB scoreA
      (List.mem_singleton.mpr rfl) (by decide) (by decide)).1⟩

/-! ### C4: deleting an event -/

/-- `sqlEq` against a non-NULL right side is plain equality. -/
theorem sqlEq_some_right (x : Option Nat) (e : Nat) :
    sqlEq x (some e) = true ↔ x = some e := by
  cases x <;> simp [sqlEq]

/-- A row whose `sqlEq` comparison with `some e` is false differs from it. -/
theorem sqlEq_some_right_false {x : Option Nat} {e : Nat}
    (hx : sqlEq x (some e) = false) : x ≠ some e := by
  intro hxe
  rw [hxe] at hx
  simp [sqlEq] at hx

/-- Characterization of `refDead`. -/
theorem refDead_eq_true {x : Option Nat} {dead : List Nat} :
    refDead x dead = true ↔ ∃ v, x = some v ∧ v ∈ dead := by
  cases x <;> simp [refDead, List.any_eq_true]

/-- Membership in the cascaded category keys. -/
theorem mem_deadCategoryIds {s : DBState} {e v : Nat} :
    v ∈ deadCategoryIds s e ↔
      ∃ c ∈ s.categories, c.id = v ∧ c.event_id = some e := by
  simp only [deadCategoryIds, List.mem_map, List.mem_filter, sqlEq_some_right]
  constructor
  · rintro ⟨c, ⟨hc, hev⟩, hid⟩
    exact ⟨c, hc, hid, hev⟩
  · rintro ⟨c, hc, hid, hev⟩
    exact ⟨c, ⟨hc, hev⟩, hid⟩

/-- The teams surviving the cascade of an event delete. -/
theorem deleteEventCascade_teams (s : DBState) (e : Nat) :
    (deleteEventCascade s e).teams =
      s.teams.filter fun t => !sqlEq t.event_id (some e) := rfl

/-- Counterexample to C4 as stated: in a state where a team of event 2
references category 10 of event 1 through `category_id` — a reference the
schema accepts, see the C5 counterexample — deleting event 1 fails: the
cascade removes category 10 but not the foreign team, and the NO ACTION
check on `teams.category_id` rejects the statement. -/
theorem event_delete_blocked_by_cross_ref :
    deleteEvent crossRefDB 1 = none ∧
    crossEventTeam ∈ crossRefDB.teams ∧
    crossEventTeam.event_id = some 2 ∧
    crossEventTeam.category_id = some catA.id ∧
    catA ∈ crossRefDB.categories ∧
    catA.event_id = some 1 := by
  refine ⟨by decide, by decide, rfl, rfl, by decide, rfl⟩

/-- C4 amended: deleting an event removes the event row and, through the
cascading foreign keys, every descendant row — its categories, teams, judges,
scoring rounds, and every assignment, score, normalized score and final
result referencing them — and the delete succeeds provided every team that
references one of the event's categories belongs to that event (the
`teams.category_id` foreign key has no cascade action, so a foreign team
referencing a deleted category makes the statement fail instead). -/
theorem event_delete_cascades_when_refs_intra (s : DBState) (e : Nat)
    (h : ∀ t ∈ s.teams, ∀ c ∈ s.categories,
      t.category_id = some c.id → c.event_id = some e → t.event_id = some e) :
    deleteEvent s e = some (deleteEventCascade s e) ∧
    (∀ x ∈ (deleteEventCascade s e).events, x.id ≠ e) ∧
    (∀ c ∈ (deleteEventCascade s e).categories, c.event_id ≠ some e) ∧
    (∀ t ∈ (deleteEventCascade s e).teams, t.event_id ≠ some e) ∧
    (∀ j ∈ (deleteEventCascade s e).judges, j.event_id ≠ some e) ∧
    (∀ r ∈ (deleteEventCascade s e).scoring_rounds, r.event_id ≠ some e) ∧
    (∀ a ∈ (deleteEventCascade s e).judge_assignments,
      refDead a.judge_id (deadJudgeIds s e) = false ∧
      refDead a.category_id (deadCategoryIds s e) = false ∧
      refDead a.team_id (deadTeamIds s e) = false) ∧
    (∀ sc ∈ (deleteEventCascade s e).scores,
      refDead sc.judge_id (deadJudgeIds s e) = false ∧
      refDead sc.team_id (deadTeamIds s e) = false ∧
      refDead sc.category_id (deadCategoryIds s e) = false ∧
      refDead sc.round_id (deadRoundIds s e) = false) ∧
    (∀ n ∈ (deleteEventCascade s e).normalized_scores,
      refDead n.judge_id (deadJudgeIds s e) = false ∧
      refDead n.team_id (deadTeamIds s e) = false ∧
      refDead n.round_id (deadRoundIds s e) = false) ∧
    (∀ f ∈ (deleteEventCascade s e).final_results,
      f.event_id ≠ some e ∧ refDead f.team_id (deadTeamIds s e) = false) := by
  have hall : ∀ t ∈ (deleteEventCascade s e).teams,
      (!refDead t.category_id (deadCategoryIds s e)) = true := by
    intro t ht
    rw [deleteEventCascade_teams] at ht
    obtain ⟨hts, hpred⟩ := List.mem_filter.mp ht
    rw [Bool.not_eq_true']
    cases hrd : refDead t.category_id (deadCategoryIds s e)
    · rfl
    · exfalso
      obtain ⟨v, hv, hvdead⟩ := refDead_eq_true.mp hrd
      obtain ⟨c, hc, hcid, hcev⟩ := mem_deadCategoryIds.mp hvdead
      have htev : t.event_id = some e := h t hts c hc (by rw [hv, hcid]) hcev
      rw [Bool.not_eq_true'] at hpred
      exact sqlEq_some_right_false hpred htev
  refine ⟨?_, ?_, ?_, ?_, ?_, ?_, ?_, ?_, ?_, ?_⟩
  · rw [deleteEvent]
    rw [if_pos (List.all_eq_true.mpr hall)]
  · intro x hx
    exact of_decide_eq_true (List.mem_filter.mp hx).2
  · intro c hc
    have := (List.mem_filter.mp hc).2
    rw [Bool.not_eq_true'] at this
    exact sqlEq_some_right_false this
  · intro t ht
    have := (List.mem_filter.mp ht).2
    rw [Bool.not_eq_true'] at this
    exact sqlEq_some_right_false this
  · intro j hj
    have := (List.mem_filter.mp hj).2
    rw [Bool.not_eq_true'] at this
    exact sqlEq_some_right_false this
  · intro r hr
    have := (List.mem_filter.mp hr).2
    rw [Bool.not_eq_true'] at this
    exact sqlEq_some_right_false this
  · intro a ha
    have := (List.mem_filter.mp ha).2
    rw [Bool.not_eq_true'] at this
    simp only [Bool.or_eq_false_iff] at this
    exact ⟨this.1.1, this.1.2, this.2⟩
  · intro sc hsc
    have := (List.mem_filter.mp hsc).2
    rw [Bool.not_eq_true'] at this
    simp only [Bool.or_eq_false_iff] at this
    exact ⟨this.1.1.1, this.1.1.2, this.1.2, this.2⟩
  · intro n hn
    have := (List.mem_filter.mp hn).2
    rw [Bool.not_eq_true'] at this
    simp only [Bool.or_eq_false_iff] at this
    exact ⟨this.1.1, this.1.2, this.2⟩
  · intro f hf
    have := (List.mem_filter.mp hf).2
    rw [Bool.not_eq_true'] at this
    simp only [Bool.or_eq_false_iff] at this
    exact ⟨sqlEq_some_right_false this.1, this.2⟩

/-- Witness for C4 amended: deleting event 1 from the fully-populated state
succeeds, every team referencing its categories being its own. -/
theorem event_delete_cascades_when_refs_intra_witness :
    deleteEvent fullEventDB 1 = some (deleteEventCascade fullEventDB 1) :=
  (event_delete_cascades_when_refs_intra fullEventDB 1 (by decide)).1
